import Mathlib

/-!
Verification of the chroma-key video compositing pipeline
(`src/ProdReadyChroma.tsx`).

The development has three parts:

* a real-valued embedding of the fragment shader (`RGBtoUV`,
  `ProcessChromaKey`), together with a second definition written from the
  design document's own description of the algorithm (`toChromaPlane`,
  `specChromaKey`) so the two can be compared;
* an executable embedding of the CPU side: `hexColorToRGBPct`, `init`,
  and the frame loop `processFrame` / `runCycles` with its `stopped` flag
  and width-triggered viewport resize;
* theorems settling the stated properties of both parts.
-/

namespace ChromaKey

/-! ## Shader math (fragment shader, lines 7-46 of the source) -/

/-- GLSL `clamp(x, lo, hi) = min(max(x, lo), hi)`. -/
def clamp (x lo hi : ℝ) : ℝ := min (max x lo) hi

/-- GLSL `mix(a, b, t) = a*(1-t) + b*t` (linear interpolation). -/
def mix (a b t : ℝ) : ℝ := a * (1 - t) + b * t

/-- A 3-component vector of reals (a `vec3` holding an RGB color). -/
structure Vec3 where
  r : ℝ
  g : ℝ
  b : ℝ

/-- A 4-component vector of reals (a `vec4` holding RGBA). -/
structure Vec4 where
  r : ℝ
  g : ℝ
  b : ℝ
  a : ℝ

/-- Euclidean distance between two 2-D points, GLSL `distance`. -/
noncomputable def dist2 (p q : ℝ × ℝ) : ℝ :=
  Real.sqrt ((p.1 - q.1) ^ 2 + (p.2 - q.2) ^ 2)

/-- The shader's `RGBtoUV` (source lines 20-25): maps RGB to the 2-D
chroma plane. Coefficients exactly as written in the shader. -/
def RGBtoUV (r g b : ℝ) : ℝ × ℝ :=
  (r * -0.169 + g * -0.331 + b * 0.5 + 0.5,
   r * 0.5 + g * -0.419 + b * -0.081 + 0.5)

/-- The chroma distance computed at source line 29 between a sampled
color and the key color. -/
noncomputable def chromaDistOf (keyColor : Vec3) (rgba : Vec4) : ℝ :=
  dist2 (RGBtoUV rgba.r rgba.g rgba.b) (RGBtoUV keyColor.r keyColor.g keyColor.b)

/-- The alpha mask of source lines 31-32 as a function of the chroma
distance: `pow(clamp((chromaDist - similarity)/smoothness, 0, 1), 1.5)`. -/
noncomputable def alphaMaskOf (similarity smoothness chromaDist : ℝ) : ℝ :=
  (clamp ((chromaDist - similarity) / smoothness) 0 1) ^ (1.5 : ℝ)

/-- The spill mask of source lines 31 and 35 as a function of the chroma
distance: `pow(clamp((chromaDist - similarity)/spill, 0, 1), 1.5)`. -/
noncomputable def spillMaskOf (similarity spill chromaDist : ℝ) : ℝ :=
  (clamp ((chromaDist - similarity) / spill) 0 1) ^ (1.5 : ℝ)

/-- The shader's `ProcessChromaKey` (source lines 27-40), with the sampled
texel and the four uniforms as explicit arguments. -/
noncomputable def ProcessChromaKey (keyColor : Vec3)
    (similarity smoothness spill : ℝ) (rgba : Vec4) : Vec4 :=
  let chromaDist := dist2 (RGBtoUV rgba.r rgba.g rgba.b)
                          (RGBtoUV keyColor.r keyColor.g keyColor.b)
  let baseMask := chromaDist - similarity
  let fullMask := (clamp (baseMask / smoothness) 0 1) ^ (1.5 : ℝ)
  let spillVal := (clamp (baseMask / spill) 0 1) ^ (1.5 : ℝ)
  let desat := clamp (rgba.r * 0.2126 + rgba.g * 0.7152 + rgba.b * 0.0722) 0 1
  ⟨mix desat rgba.r spillVal, mix desat rgba.g spillVal,
   mix desat rgba.b spillVal, fullMask⟩

/-! ### The design document's description of the same algorithm -/

/-- The spec's `toChromaPlane(rgb) -> (u, v)`, written from the design
document's formulas, to be compared against `RGBtoUV`. -/
def toChromaPlane (r g b : ℝ) : ℝ × ℝ :=
  (-0.169 * r - 0.331 * g + 0.5 * b + 0.5,
   0.5 * r - 0.419 * g - 0.081 * b + 0.5)

/-- Standard `lerp(a, b, t) = a + (b - a)*t`, the form the design
document uses for the output-RGB interpolation. -/
def lerp (a b t : ℝ) : ℝ := a + (b - a) * t

/-- The per-pixel algorithm exactly as the design document states it
(steps 1-7 of its shader section), to be compared with
`ProcessChromaKey`. -/
noncomputable def specChromaKey (k : Vec3)
    (similarity smoothness spill : ℝ) (s : Vec4) : Vec4 :=
  let d := dist2 (toChromaPlane s.r s.g s.b) (toChromaPlane k.r k.g k.b)
  let base := d - similarity
  let alphaMask := (clamp (base / smoothness) 0 1) ^ (1.5 : ℝ)
  let spillMask := (clamp (base / spill) 0 1) ^ (1.5 : ℝ)
  let luma := clamp (0.2126 * s.r + 0.7152 * s.g + 0.0722 * s.b) 0 1
  ⟨lerp luma s.r spillMask, lerp luma s.g spillMask,
   lerp luma s.b spillMask, alphaMask⟩

/-! ### Helper lemmas about the shader math -/

lemma RGBtoUV_eq_toChromaPlane (r g b : ℝ) :
    RGBtoUV r g b = toChromaPlane r g b := by
  unfold RGBtoUV toChromaPlane
  simp only [Prod.mk.injEq]
  constructor <;> ring

lemma mix_eq_lerp (a b t : ℝ) : mix a b t = lerp a b t := by
  unfold mix lerp; ring

lemma dist2_self (p : ℝ × ℝ) : dist2 p p = 0 := by
  unfold dist2
  simp

lemma clamp_nonneg (x hi : ℝ) (hhi : 0 ≤ hi) : 0 ≤ clamp x 0 hi := by
  unfold clamp
  exact le_min (le_max_right x 0) hhi

lemma clamp_eq_zero_of_nonpos (x : ℝ) (hx : x ≤ 0) : clamp x 0 1 = 0 := by
  unfold clamp
  rw [max_eq_right hx]
  exact min_eq_left (by norm_num)

lemma clamp_eq_one_of_one_le (x : ℝ) (hx : 1 ≤ x) : clamp x 0 1 = 1 := by
  unfold clamp
  rw [max_eq_left (le_trans (by norm_num) hx)]
  exact min_eq_right hx

lemma clamp_mono (x y : ℝ) (h : x ≤ y) : clamp x 0 1 ≤ clamp y 0 1 := by
  unfold clamp
  exact min_le_min (max_le_max h le_rfl) le_rfl

lemma ProcessChromaKey_alpha (k : Vec3) (sim sm sp : ℝ) (s : Vec4) :
    (ProcessChromaKey k sim sm sp s).a = alphaMaskOf sim sm (chromaDistOf k s) := by
  rfl

/-! ## Theorems about the shader -/

/-- **C1.** For every sampled pixel and key color, the fragment shader's
per-pixel output coincides with the design document's algorithm: same
chroma-plane map, same Euclidean chroma distance, alpha
`clamp(base/smoothness,0,1)^1.5`, and RGB
`lerp((luma,luma,luma), s.rgb, clamp(base/spill,0,1)^1.5)` with BT.709
luma clamped to `[0,1]`. -/
theorem shader_refines_spec (k : Vec3) (sim sm sp : ℝ) (s : Vec4) :
    ProcessChromaKey k sim sm sp s = specChromaKey k sim sm sp s := by
  have hluma : clamp (s.r * 0.2126 + s.g * 0.7152 + s.b * 0.0722) 0 1
      = clamp (0.2126 * s.r + 0.7152 * s.g + 0.0722 * s.b) 0 1 := by
    unfold clamp
    ring_nf
  simp only [ProcessChromaKey, specChromaKey, RGBtoUV_eq_toChromaPlane,
    mix_eq_lerp, hluma]

/-- **C7.** For every valid config (`similarity ≥ 0`, `smoothness > 0`)
and chroma distance `d`: `d ≤ similarity` gives alpha mask `0`
(in particular a pixel identical to the key color, where `d = 0`, gives
alpha `0`), and `d ≥ similarity + smoothness` gives alpha mask `1`. -/
theorem alphaMask_saturation (k : Vec3) (a sim sm sp : ℝ)
    (hsim : 0 ≤ sim) (hsm : 0 < sm) :
    (∀ d, d ≤ sim → alphaMaskOf sim sm d = 0) ∧
    (∀ d, sim + sm ≤ d → alphaMaskOf sim sm d = 1) ∧
    (ProcessChromaKey k sim sm sp ⟨k.r, k.g, k.b, a⟩).a = 0 := by
  have hzero : ∀ d, d ≤ sim → alphaMaskOf sim sm d = 0 := by
    intro d hd
    unfold alphaMaskOf
    rw [clamp_eq_zero_of_nonpos _ (div_nonpos_of_nonpos_of_nonneg
      (by linarith) (le_of_lt hsm))]
    exact Real.zero_rpow (by norm_num)
  refine ⟨hzero, ?_, ?_⟩
  · intro d hd
    unfold alphaMaskOf
    rw [clamp_eq_one_of_one_le _ ((le_div_iff₀ hsm).mpr (by linarith))]
    exact Real.one_rpow _
  · rw [ProcessChromaKey_alpha]
    have hdist : chromaDistOf k ⟨k.r, k.g, k.b, a⟩ = 0 := dist2_self _
    rw [hdist]
    exact hzero 0 hsim

/-- Witness for `alphaMask_saturation` at the spec's concrete scenario:
`similarity = 0.4`, `smoothness = 0.08`, key color `#11ff05`. -/
theorem alphaMask_saturation_witness :
    alphaMaskOf 0.4 0.08 0.2 = 0 ∧ alphaMaskOf 0.4 0.08 1 = 1 ∧
    (ProcessChromaKey ⟨0.0667, 1, 0.0196⟩ 0.4 0.08 0.1
      ⟨0.0667, 1, 0.0196, 0⟩).a = 0 := by
  have h := alphaMask_saturation ⟨0.0667, 1, 0.0196⟩ 0 0.4 0.08 0.1
    (by norm_num) (by norm_num)
  exact ⟨h.1 0.2 (by norm_num), h.2.1 1 (by norm_num), h.2.2⟩

/-- **C8.** For fixed `similarity ≥ 0` and `smoothness > 0`, the alpha
mask is monotone non-decreasing in the chroma distance. -/
theorem alphaMask_mono (sim sm d1 d2 : ℝ)
    (hsim : 0 ≤ sim) (hsm : 0 < sm) (h : d1 ≤ d2) :
    alphaMaskOf sim sm d1 ≤ alphaMaskOf sim sm d2 := by
  unfold alphaMaskOf
  apply Real.rpow_le_rpow (clamp_nonneg _ _ (by norm_num))
  · exact clamp_mono _ _ ((div_le_div_iff_of_pos_right hsm).mpr (by linarith))
  · norm_num

/-- Witness for `alphaMask_mono` at the spec's thresholds. -/
theorem alphaMask_mono_witness :
    alphaMaskOf 0.4 0.08 0.3 ≤ alphaMaskOf 0.4 0.08 0.5 :=
  alphaMask_mono 0.4 0.08 0.3 0.5 (by norm_num) (by norm_num) (by norm_num)

/-- **C9.** The spill mask and the alpha mask are built from the same
base term `d - similarity`, the same clamp range and the same exponent,
differing only in the denominator; when `spill = smoothness` they agree
exactly, so the shader's output RGB interpolates with exactly the output
alpha. -/
theorem spillMask_eq_alphaMask (k : Vec3) (sim t d : ℝ) (s : Vec4) :
    spillMaskOf sim t d = alphaMaskOf sim t d ∧
    (ProcessChromaKey k sim t t s).r =
      mix (clamp (s.r * 0.2126 + s.g * 0.7152 + s.b * 0.0722) 0 1) s.r
        ((ProcessChromaKey k sim t t s).a) := by
  exact ⟨rfl, rfl⟩

/-! ## Hex color parsing (source lines 95-102) -/

/-- Value of one hex digit as matched by the character class `[0-9a-f]`
under the case-insensitive flag, decided on its code point; `none` when
the character is not a hex digit. -/
def hexDigitVal (c : Char) : Option Nat :=
  if 48 ≤ c.toNat ∧ c.toNat ≤ 57 then some (c.toNat - 48)
  else if 97 ≤ c.toNat ∧ c.toNat ≤ 102 then some (c.toNat - 87)
  else if 65 ≤ c.toNat ∧ c.toNat ≤ 70 then some (c.toNat - 55)
  else none

/-- Whether a character list matches the source's pattern
`^#([0-9a-f]{6})$` with flag `i`: a `#` then exactly six hex digits. -/
def hexMatchesL : List Char → Bool
  | ['#', c1, c2, c3, c4, c5, c6] =>
    (hexDigitVal c1).isSome && (hexDigitVal c2).isSome &&
    (hexDigitVal c3).isSome && (hexDigitVal c4).isSome &&
    (hexDigitVal c5).isSome && (hexDigitVal c6).isSome
  | _ => false

/-- `hexColorToRGBPct` on the character list: on a pattern match each
two-digit byte is parsed base 16 and divided by 255; otherwise every
component is `parseInt("0", 16) / 255 = 0`. -/
def hexColorToRGBPctL : List Char → ℚ × ℚ × ℚ
  | ['#', c1, c2, c3, c4, c5, c6] =>
    match hexDigitVal c1, hexDigitVal c2, hexDigitVal c3,
          hexDigitVal c4, hexDigitVal c5, hexDigitVal c6 with
    | some v1, some v2, some v3, some v4, some v5, some v6 =>
      ((16 * v1 + v2 : ℚ) / 255, (16 * v3 + v4 : ℚ) / 255,
       (16 * v5 + v6 : ℚ) / 255)
    | _, _, _, _, _, _ => (0, 0, 0)
  | _ => (0, 0, 0)

/-- Whether a string matches `^#([0-9a-f]{6})$` (flag `i`). -/
def hexMatches (s : String) : Bool := hexMatchesL s.toList

/-- `hexColorToRGBPct` (source lines 95-102). -/
def hexColorToRGBPct (s : String) : ℚ × ℚ × ℚ := hexColorToRGBPctL s.toList

/-- All three components of a color triple lie in `[0, 1]`. -/
def inUnit3 (t : ℚ × ℚ × ℚ) : Prop :=
  0 ≤ t.1 ∧ t.1 ≤ 1 ∧ 0 ≤ t.2.1 ∧ t.2.1 ≤ 1 ∧ 0 ≤ t.2.2 ∧ t.2.2 ≤ 1

lemma hexDigitVal_le_15 (c : Char) (v : Nat) (h : hexDigitVal c = some v) :
    v ≤ 15 := by
  unfold hexDigitVal at h
  split_ifs at h with h1 h2 h3 <;> injection h with h4 <;> omega

lemma bytePct_mem_unit (v1 v2 : Nat) (h1 : v1 ≤ 15) (h2 : v2 ≤ 15) :
    0 ≤ (16 * v1 + v2 : ℚ) / 255 ∧ (16 * v1 + v2 : ℚ) / 255 ≤ 1 := by
  have hv1 : (v1 : ℚ) ≤ 15 := by exact_mod_cast h1
  have hv2 : (v2 : ℚ) ≤ 15 := by exact_mod_cast h2
  constructor
  · positivity
  · rw [div_le_one (by norm_num)]
    linarith

lemma hexColorToRGBPctL_mem_unit (l : List Char) :
    inUnit3 (hexColorToRGBPctL l) := by
  unfold hexColorToRGBPctL
  split
  · split
    next v1 v2 v3 v4 v5 v6 h1 h2 h3 h4 h5 h6 =>
      have b1 := bytePct_mem_unit v1 v2 (hexDigitVal_le_15 _ _ h1)
        (hexDigitVal_le_15 _ _ h2)
      have b2 := bytePct_mem_unit v3 v4 (hexDigitVal_le_15 _ _ h3)
        (hexDigitVal_le_15 _ _ h4)
      have b3 := bytePct_mem_unit v5 v6 (hexDigitVal_le_15 _ _ h5)
        (hexDigitVal_le_15 _ _ h6)
      exact ⟨b1.1, b1.2, b2.1, b2.2, b3.1, b3.2⟩
    next => exact ⟨le_rfl, by norm_num, le_rfl, by norm_num, le_rfl, by norm_num⟩
  · exact ⟨le_rfl, by norm_num, le_rfl, by norm_num, le_rfl, by norm_num⟩

lemma hexColorToRGBPctL_default (l : List Char) (hm : hexMatchesL l = false) :
    hexColorToRGBPctL l = (0, 0, 0) := by
  unfold hexColorToRGBPctL
  split
  next c1 c2 c3 c4 c5 c6 =>
    split
    next v1 v2 v3 v4 v5 v6 h1 h2 h3 h4 h5 h6 =>
      simp [hexMatchesL, h1, h2, h3, h4, h5, h6] at hm
    next => rfl
  next => rfl

lemma hexColorToRGBPctL_of_digits (c1 c2 c3 c4 c5 c6 : Char)
    (v1 v2 v3 v4 v5 v6 : Nat)
    (h1 : hexDigitVal c1 = some v1) (h2 : hexDigitVal c2 = some v2)
    (h3 : hexDigitVal c3 = some v3) (h4 : hexDigitVal c4 = some v4)
    (h5 : hexDigitVal c5 = some v5) (h6 : hexDigitVal c6 = some v6) :
    hexColorToRGBPctL ['#', c1, c2, c3, c4, c5, c6] =
      ((16 * v1 + v2 : ℚ) / 255, (16 * v3 + v4 : ℚ) / 255,
       (16 * v5 + v6 : ℚ) / 255) := by
  unfold hexColorToRGBPctL
  simp only [h1, h2, h3, h4, h5, h6]

/-- **C10.** For every input string `hexColorToRGBPct` returns components
in `[0, 1]`; an input not matching `#` plus six hex digits
(case-insensitive) yields exactly `(0, 0, 0)`; a matching `#rrggbb`
yields each two-digit hex byte divided by 255. -/
theorem hexColorToRGBPct_contract (s : String) (c1 c2 c3 c4 c5 c6 : Char) :
    inUnit3 (hexColorToRGBPct s) ∧
    (hexMatches s = false → hexColorToRGBPct s = (0, 0, 0)) ∧
    (s.toList = ['#', c1, c2, c3, c4, c5, c6] → hexMatches s = true →
      hexColorToRGBPct s =
        ((16 * ((hexDigitVal c1).getD 0) + (hexDigitVal c2).getD 0 : ℚ) / 255,
         (16 * ((hexDigitVal c3).getD 0) + (hexDigitVal c4).getD 0 : ℚ) / 255,
         (16 * ((hexDigitVal c5).getD 0) + (hexDigitVal c6).getD 0 : ℚ) / 255)) := by
  refine ⟨hexColorToRGBPctL_mem_unit s.toList,
    fun hm => hexColorToRGBPctL_default s.toList hm, ?_⟩
  intro hs hm
  unfold hexMatches at hm
  rw [hs] at hm
  simp only [hexMatchesL, Bool.and_eq_true, Option.isSome_iff_exists] at hm
  obtain ⟨⟨⟨⟨⟨⟨v1, hv1⟩, v2, hv2⟩, v3, hv3⟩, v4, hv4⟩, v5, hv5⟩, v6, hv6⟩ := hm
  unfold hexColorToRGBPct
  rw [hs, hexColorToRGBPctL_of_digits c1 c2 c3 c4 c5 c6 v1 v2 v3 v4 v5 v6
    hv1 hv2 hv3 hv4 hv5 hv6, hv1, hv2, hv3, hv4, hv5, hv6]
  rfl

/-- Witness for `hexColorToRGBPct_contract` at the demo's default key
color `#11ff05`. -/
theorem hexColorToRGBPct_contract_witness :
    hexColorToRGBPct (String.mk ['#', '1', '1', 'f', 'f', '0', '5']) =
      ((16 * ((hexDigitVal '1').getD 0) + (hexDigitVal '1').getD 0 : ℚ) / 255,
       (16 * ((hexDigitVal 'f').getD 0) + (hexDigitVal 'f').getD 0 : ℚ) / 255,
       (16 * ((hexDigitVal '0').getD 0) + (hexDigitVal '5').getD 0 : ℚ) / 255) :=
  (hexColorToRGBPct_contract (String.mk ['#', '1', '1', 'f', 'f', '0', '5'])
    '1' '1' 'f' 'f' '0' '5').2.2 rfl (by decide)

/-! ## Program initialization (source lines 48-93) and the demo effect
(source lines 190-242) -/

/-- Outcome flags for the GPU operations `init` performs: whether the
three object creations succeed, whether the fragment shader compiles,
and whether the program links. -/
structure GLInit where
  canCreateVS : Bool
  canCreateFS : Bool
  canCreateProg : Bool
  fsCompileOk : Bool
  linkOk : Bool

/-- The program handle `init` returns, carrying the link status that
`init` never inspects. -/
structure Program where
  linked : Bool

/-- Text of `gl.getShaderInfoLog(fs)` as printed by `console.error` at
source line 62 (the diagnostic is driver-defined; the model fixes one). -/
def fsCompileLog : String := "fragment shader info log"

/-- `init` (source lines 48-93): throws when creating a shader or
program object fails; checks the fragment shader's `COMPILE_STATUS` but
on failure only logs the info log and continues; never checks
`LINK_STATUS`; returns the program together with the console-error
lines produced on the way. -/
def init (g : GLInit) : Except String (Program × List String) :=
  if !g.canCreateVS then .error "Could not create VERTEX_SHADER"
  else if !g.canCreateFS then .error "Could not create FRAGMENT_SHADER"
  else
    let log := if !g.fsCompileOk then [fsCompileLog] else []
    if !g.canCreateProg then .error "Could not create WebGL Program"
    else .ok (⟨g.linkOk⟩, log)

/-- The demo's setup effect (source lines 190-242): when `init` throws,
the effect aborts before building `wgl`, so `start()` is never called;
otherwise `wgl.start()` runs and flips `stopped` to `false`, entering
the Running state. Returns whether the pipeline enters Running. -/
def demoEnterRunning (g : GLInit) : Bool :=
  match init g with
  | .error _ => false
  | .ok _ => true

/-! ## The frame loop (source lines 121-183) with `stop` (lines 228-231) -/

/-- The canvas element backing the render target (mutable width and
height; an HTML canvas starts at 300 x 150 before anyone sets it). -/
structure Canvas where
  width : Nat
  height : Nat

/-- The GPU viewport rectangle set by `gl.viewport`. -/
structure Viewport where
  x : Nat
  y : Nat
  w : Nat
  h : Nat

/-- The raw per-cycle configuration: hex key-color string and the three
thresholds, as produced by `getConfig`'s default table (source lines
213-224) before parsing. -/
structure RawConfig where
  keycolor : String
  similarity : ℚ
  smoothness : ℚ
  spill : ℚ

/-- The uniform values a cycle hands to the GPU (source lines 157-166):
the key color parsed by `hexColorToRGBPct` (source line 222), the three
thresholds passed through as-is. -/
structure Uniforms where
  keyColor : ℚ × ℚ × ℚ
  similarity : ℚ
  smoothness : ℚ
  spill : ℚ

/-- The uniforms a cycle sends for a given raw configuration snapshot. -/
def cycleUniforms (cfg : RawConfig) : Uniforms :=
  ⟨hexColorToRGBPct cfg.keycolor, cfg.similarity, cfg.smoothness, cfg.spill⟩

/-- The mutable state the frame loop touches: the `wgl.stopped` flag, the
canvas dimensions, the viewport, and whether a `processFrame` invocation
is currently armed (scheduled). -/
structure FrameState where
  stopped : Bool
  canvas : Canvas
  viewport : Viewport
  armed : Bool

/-- What one `processFrame` invocation did: whether it resized the
canvas and reset the viewport, uploaded a texture, which uniforms it
set, and whether it issued the draw call. -/
structure FrameEffects where
  resized : Bool
  uploaded : Bool
  uniforms : Option Uniforms
  drew : Bool

/-- Source lines 139-143: if the video's width differs from the canvas
width, set canvas width/height to the video's dimensions and call
`gl.viewport(0, 0, videoWidth, videoHeight)`; otherwise leave both
untouched. Returns the new canvas, viewport, and whether a resize
happened. -/
def viewportSync (videoWidth videoHeight : Nat) (c : Canvas) (vp : Viewport) :
    Canvas × Viewport × Bool :=
  if videoWidth ≠ c.width then
    (⟨videoWidth, videoHeight⟩, ⟨0, 0, videoWidth, videoHeight⟩, true)
  else (c, vp, false)

/-- One invocation of `processFrame` (source lines 137-180) given the
video's current dimensions and the configuration snapshot. The step-1
guard (line 138) aborts when `stopped`; otherwise the cycle syncs the
viewport, uploads the frame, sets uniforms, draws, and — after the
defensive second guard (line 169) — arms the next invocation. -/
def processFrame (videoWidth videoHeight : Nat) (cfg : RawConfig)
    (s : FrameState) : FrameState × FrameEffects :=
  if s.stopped then ({ s with armed := false }, ⟨false, false, none, false⟩)
  else
    let r := viewportSync videoWidth videoHeight s.canvas s.viewport
    let eff : FrameEffects := ⟨r.2.2, true, some (cycleUniforms cfg), true⟩
    if s.stopped then
      ({ s with canvas := r.1, viewport := r.2.1, armed := false }, eff)
    else
      ({ s with canvas := r.1, viewport := r.2.1, armed := true }, eff)

/-- `stop` (source lines 228-231): flips the `stopped` flag; it cannot
retract an already-armed invocation. -/
def stop (s : FrameState) : FrameState := { s with stopped := true }

/-- Counters over a run: how many armed cycles actually executed, how
many draw calls were issued, how many resizes happened. -/
structure RunCounts where
  runs : Nat
  draws : Nat
  resizes : Nat

/-- Run the loop over a list of per-cycle inputs (video width, video
height, configuration snapshot). A cycle executes only while an
invocation is armed; executing consumes the arm and `processFrame`
re-arms when it completes a draw. -/
def runCycles : List (Nat × Nat × RawConfig) → FrameState → FrameState × RunCounts
  | [], s => (s, ⟨0, 0, 0⟩)
  | i :: rest, s =>
    if s.armed then
      let r := processFrame i.1 i.2.1 i.2.2 { s with armed := false }
      let t := runCycles rest r.1
      (t.1, ⟨t.2.runs + 1, t.2.draws + (if r.2.drew then 1 else 0),
             t.2.resizes + (if r.2.resized then 1 else 0)⟩)
    else
      runCycles rest s

/-- Number of positions at which the video width differs from the width
seen just before it (seeded with the canvas's starting width). -/
def widthChanges : List (Nat × Nat × RawConfig) → Nat → Nat
  | [], _ => 0
  | i :: rest, w => (if i.1 ≠ w then 1 else 0) + widthChanges rest i.1

/-- The demo's default configuration (source lines 214-219). -/
def defaultRaw : RawConfig := ⟨"#11ff05", 0.4, 0.08, 0.1⟩

/-! ### Helper lemmas about the frame loop -/

lemma processFrame_stopped (w h : Nat) (cfg : RawConfig) (s : FrameState)
    (hs : s.stopped = true) :
    processFrame w h cfg s = ({ s with armed := false }, ⟨false, false, none, false⟩) := by
  unfold processFrame
  rw [hs]
  simp

lemma runCycles_of_stopped (l : List (Nat × Nat × RawConfig)) (s : FrameState)
    (hs : s.stopped = true) :
    (runCycles l s).2.draws = 0 ∧
    (runCycles l s).2.runs ≤ (if s.armed = true then 1 else 0) ∧
    (runCycles l s).1.stopped = true := by
  induction l generalizing s with
  | nil => exact ⟨rfl, by simp [runCycles], hs⟩
  | cons i rest ih =>
    by_cases ha : s.armed = true
    · have hpf := processFrame_stopped i.1 i.2.1 i.2.2 { s with armed := false } hs
      have hrest := ih { s with armed := false } hs
      have hruns : (runCycles rest { s with armed := false }).2.runs = 0 := by
        simpa using hrest.2.1
      unfold runCycles
      rw [if_pos ha, hpf]
      exact ⟨by simpa using hrest.1, by simp [ha, hruns], by simpa using hrest.2.2⟩
    · unfold runCycles
      rw [if_neg ha]
      exact ih s hs

/-- **C2.** `stop()` flips the scheduler state to Stopped; afterwards no
cycle whose step-1 guard runs after the flip issues a draw call, and at
most one already-armed cycle still executes (blocked by the guard),
whatever inputs later cycles would have seen. -/
theorem stop_prevents_draws (s : FrameState) (l : List (Nat × Nat × RawConfig)) :
    (stop s).stopped = true ∧
    (runCycles l (stop s)).2.draws = 0 ∧
    (runCycles l (stop s)).2.runs ≤ 1 := by
  have h := runCycles_of_stopped l (stop s) rfl
  refine ⟨rfl, h.1, ?_⟩
  have := h.2.1
  split at this <;> omega

lemma runCycles_resizes (l : List (Nat × Nat × RawConfig)) (c : Canvas)
    (vp : Viewport) :
    (runCycles l ⟨false, c, vp, true⟩).2.resizes = widthChanges l c.width := by
  induction l generalizing c vp with
  | nil => rfl
  | cons i rest ih =>
    by_cases hw : i.1 = c.width
    · simp [runCycles, processFrame, viewportSync, hw, widthChanges, ih]
    · simp only [runCycles, processFrame, viewportSync, widthChanges,
        if_pos hw, if_neg (by simpa using hw), if_true, if_false]
      simp [ih, hw]
      omega

/-- Counterexample to **C3**: starting from a 0 x 0 render target, the
source reports 2 x 2 and then 2 x 3. The native dimensions change twice
(and on the second cycle source height 3 differs from the target's
height 2), yet only one resize ever happens, because the code compares
widths only: the render target stays 2 x 2. -/
theorem resize_misses_height_change :
    (runCycles [(2, 2, defaultRaw), (2, 3, defaultRaw)]
      ⟨false, ⟨0, 0⟩, ⟨0, 0, 0, 0⟩, true⟩).2.resizes = 1 ∧
    (runCycles [(2, 2, defaultRaw), (2, 3, defaultRaw)]
      ⟨false, ⟨0, 0⟩, ⟨0, 0, 0, 0⟩, true⟩).1.canvas.width = 2 ∧
    (runCycles [(2, 2, defaultRaw), (2, 3, defaultRaw)]
      ⟨false, ⟨0, 0⟩, ⟨0, 0, 0, 0⟩, true⟩).1.canvas.height = 2 ∧
    (2, 3) ≠ ((2 : Nat), (2 : Nat)) := by
  refine ⟨rfl, rfl, rfl, by decide⟩

/-- **C3 (amended).** The render target and viewport change only when
the source's native width differs from the target's current width — a
cycle whose width matches the last-seen width performs no resize, and a
run performs exactly one resize per distinct width change; the
comparison ignores the height, so a height-only change triggers no
resize. On a resize the target takes the source's width and height and
the viewport covers the full new size at origin (0,0). -/
theorem resize_iff_width_change (l : List (Nat × Nat × RawConfig))
    (c : Canvas) (vp : Viewport) (w h : Nat) :
    (runCycles l ⟨false, c, vp, true⟩).2.resizes = widthChanges l c.width ∧
    viewportSync w h c vp =
      (if w = c.width then (c, vp, false)
       else (⟨w, h⟩, ⟨0, 0, w, h⟩, true)) := by
  refine ⟨runCycles_resizes l c vp, ?_⟩
  unfold viewportSync
  by_cases hw : w = c.width
  · rw [if_neg (by simpa using hw), if_pos hw]
  · rw [if_pos hw, if_neg hw]

/-- Counterexample to **C4**: with all object creations succeeding but
the fragment shader failing to compile and the program failing to link,
`init` still returns the program (with the compile diagnostic only
logged), and the demo still calls `start()`, entering Running — no
initialization error reaches the caller. -/
theorem init_ignores_compile_failure :
    (init ⟨true, true, true, false, false⟩).isOk = true ∧
    init ⟨true, true, true, false, false⟩ = .ok (⟨false⟩, [fsCompileLog]) ∧
    demoEnterRunning ⟨true, true, true, false, false⟩ = true :=
  ⟨rfl, rfl, rfl⟩

/-- **C4 (amended).** Only a failure to create the vertex shader, the
fragment shader, or the program object is thrown synchronously as an
initialization error and keeps the pipeline from entering Running. A
fragment-shader compile failure is captured as diagnostic text but only
logged: `init` still returns the program as usable, the pipeline still
enters Running and draw cycles proceed; the link status is never
checked at all. -/
theorem init_error_only_on_creation (g : GLInit) :
    ((init g).isOk = (g.canCreateVS && g.canCreateFS && g.canCreateProg)) ∧
    (init ⟨true, true, true, g.fsCompileOk, g.linkOk⟩ =
      .ok (⟨g.linkOk⟩, if g.fsCompileOk then [] else [fsCompileLog])) ∧
    (demoEnterRunning g = (init g).isOk) := by
  rcases g with ⟨vs, fs, pr, co, lk⟩
  cases vs <;> cases fs <;> cases pr <;> cases co <;>
    simp [init, demoEnterRunning, Except.isOk, Except.toBool]

/-- Counterexample to **C5**: a cycle whose snapshot has
`smoothness = 0` and `spill = 0` (both out of range — the spec demands
strictly positive) sends exactly `0` for both uniforms: no "minimum
positive threshold" is ever substituted. -/
theorem no_threshold_substitution :
    (cycleUniforms ⟨"#11ff05", 0.4, 0, 0⟩).smoothness = 0 ∧
    (cycleUniforms ⟨"#11ff05", 0.4, 0, 0⟩).spill = 0 ∧
    ¬ (0 : ℚ) < (cycleUniforms ⟨"#11ff05", 0.4, 0, 0⟩).smoothness :=
  ⟨rfl, rfl, by decide⟩

/-- **C5 (amended).** A non-parseable key color falls back to black
`(0,0,0)` and the draw still proceeds, but non-positive smoothness and
spill values are passed through to the shader unchanged — no safe
minimum is substituted; the cycle never aborts on any snapshot. -/
theorem invalid_config_passthrough (cfg : RawConfig) (w h : Nat)
    (c : Canvas) (vp : Viewport) (a : Bool) :
    (cycleUniforms cfg).smoothness = cfg.smoothness ∧
    (cycleUniforms cfg).spill = cfg.spill ∧
    (hexMatches cfg.keycolor = false → (cycleUniforms cfg).keyColor = (0, 0, 0)) ∧
    (processFrame w h cfg ⟨false, c, vp, a⟩).2.drew = true := by
  refine ⟨rfl, rfl, ?_, ?_⟩
  · intro hm
    show hexColorToRGBPct cfg.keycolor = (0, 0, 0)
    exact hexColorToRGBPctL_default cfg.keycolor.toList hm
  · unfold processFrame viewportSync
    split <;> simp_all

/-- Witness for `invalid_config_passthrough` at a snapshot with a
non-parseable key color and zero thresholds. -/
theorem invalid_config_passthrough_witness :
    (cycleUniforms ⟨"oops", 0.4, 0, 0⟩).smoothness = 0 ∧
    (cycleUniforms ⟨"oops", 0.4, 0, 0⟩).spill = 0 ∧
    (cycleUniforms ⟨"oops", 0.4, 0, 0⟩).keyColor = (0, 0, 0) ∧
    (processFrame 1 1 ⟨"oops", 0.4, 0, 0⟩
      ⟨false, ⟨1, 1⟩, ⟨0, 0, 1, 1⟩, true⟩).2.drew = true := by
  have h := invalid_config_passthrough ⟨"oops", 0.4, 0, 0⟩ 1 1 ⟨1, 1⟩
    ⟨0, 0, 1, 1⟩ true
  exact ⟨h.1, h.2.1, h.2.2.1 (by decide), h.2.2.2⟩

/-- Counterexample to **C6**: the source reports 0 x 0 (no decoded frame
yet) while the canvas still has the HTML default size 300 x 150. The
cycle does not skip: it resizes the target to 0 x 0, reconfigures the
viewport, uploads, and issues the draw call. -/
theorem zero_dims_cycle_still_draws :
    (processFrame 0 0 defaultRaw
      ⟨false, ⟨300, 150⟩, ⟨0, 0, 300, 150⟩, true⟩).2.drew = true ∧
    (processFrame 0 0 defaultRaw
      ⟨false, ⟨300, 150⟩, ⟨0, 0, 300, 150⟩, true⟩).2.resized = true ∧
    (processFrame 0 0 defaultRaw
      ⟨false, ⟨300, 150⟩, ⟨0, 0, 300, 150⟩, true⟩).1.canvas.width = 0 ∧
    (processFrame 0 0 defaultRaw
      ⟨false, ⟨300, 150⟩, ⟨0, 0, 300, 150⟩, true⟩).1.canvas.height = 0 :=
  ⟨rfl, rfl, rfl, rfl⟩

/-- **C6 (amended).** A zero-size source is not special-cased: a running
cycle behaves exactly as with any other dimensions — it uploads, draws,
and re-arms; viewport sync still fires precisely when the (zero) width
differs from the canvas width, shrinking the target to 0 x 0. The
condition is indeed not fatal: the loop keeps cycling. -/
theorem zero_dims_not_special (cfg : RawConfig) (c : Canvas) (vp : Viewport)
    (a : Bool) :
    (processFrame 0 0 cfg ⟨false, c, vp, a⟩).2.drew = true ∧
    (processFrame 0 0 cfg ⟨false, c, vp, a⟩).2.uploaded = true ∧
    (processFrame 0 0 cfg ⟨false, c, vp, a⟩).1.armed = true ∧
    (processFrame 0 0 cfg ⟨false, c, vp, a⟩).2.resized = decide (0 ≠ c.width) := by
  by_cases hc : 0 = c.width <;> simp [processFrame, viewportSync, hc]

end ChromaKey
